import Mathlib

/-!
Verification development for the DDEX ERN 3.8.2 generator service.

The generator (`src/services/ddexGenerator.ts`, with types and lookup tables
from `src/types/ddex.ts`) is a pure transformation from a release snapshot to
an XML document.  We embed the generator shallowly: the XML document is a tree
(`Xml`), JavaScript string/number idioms (`||` defaulting, `parseInt`,
truthiness) are modelled explicitly, and each builder section of the source is
one Lean definition mirroring the source statement for statement.

A crucial point of the embedding: the source uses the xmlbuilder2 library, in
which every builder method returns a fresh builder object positioned at the
affected node and never mutates the receiver's position.  A bare statement
`doc.up();` therefore discards its result and does not move `doc`.  In the
rich generator the `doc` variable is left positioned at `MessageHeader` after
the header chain, so `ResourceList`, `ReleaseList`, `DealList` and
`ReleaseRelationships` are appended as children of `MessageHeader`, not of the
document root.  The embedding reproduces this faithfully.
-/

namespace Ddex

/-- XML node: an element with a name, attribute list and ordered children, or
a text node.  Attribute and child order is document order. -/
inductive Xml where
  | elem (name : String) (attrs : List (String × String)) (children : List Xml)
  | text (s : String)

/-- An element whose only child is a text node, as produced by
`.ele(name).txt(v).up()` in the source. -/
def leaf (name v : String) : Xml := .elem name [] [.text v]

/-- Element name of a node (text nodes have no name). -/
def Xml.nameOf : Xml → String
  | .elem n _ _ => n
  | .text _ => ""

/-- Children of a node. -/
def Xml.childrenOf : Xml → List Xml
  | .elem _ _ cs => cs
  | .text _ => []

/-- Attributes of a node. -/
def Xml.attrsOf : Xml → List (String × String)
  | .elem _ a _ => a
  | .text _ => []

/-- Text content of a text node or of a single-text-child element (the shape
every `leaf` has); other shapes yield `""`. -/
def Xml.textOf1 : Xml → String
  | .text s => s
  | .elem _ _ [Xml.text s] => s
  | .elem _ _ _ => ""

/-- First child of a node (used to descend into `DealTerms`,
`ValidityPeriod` etc.). -/
def firstChild (x : Xml) : Xml := x.childrenOf.headD (.text "")

/-- The children of a node that are elements with the given name, in order. -/
def elemsNamed (n : String) (x : Xml) : List Xml :=
  x.childrenOf.filter fun c => c.nameOf == n

-- ==========================================================================
-- JavaScript-semantics primitives
-- ==========================================================================

/-- Truthiness of a `string | undefined` value: `undefined` and `""` are
falsy, every other string is truthy. -/
def strTruthy : Option String → Bool
  | none => false
  | some s => s != ""

/-- `a || b` on `string | undefined` values: the first operand when truthy,
otherwise the second operand's value. -/
def jsOrS (a b : Option String) : Option String :=
  if strTruthy a then a else b

/-- `a || dflt` where `dflt` is a (truthy) string literal. -/
def jsOr (a : Option String) (dflt : String) : String :=
  match a with
  | some s => if s == "" then dflt else s
  | none => dflt

/-- `a || b` on numbers where `a : number | undefined` (no NaN source) and
`b` may be NaN (`none`): `undefined` and `0` are falsy. -/
def jsOrN (a : Option Int) (b : Option Int) : Option Int :=
  match a with
  | some n => if n == 0 then b else some n
  | none => b

/-- `Number.prototype.toString` restricted to our integer-or-NaN model:
`none` (NaN) prints as `"NaN"`. -/
def numToString : Option Int → String
  | none => "NaN"
  | some n => toString n

/-- Numeric value of a list of decimal digits. -/
def digitsToNat (ds : List Char) : Nat :=
  ds.foldl (fun a c => a * 10 + (c.toNat - 48)) 0

/-- JavaScript `parseInt(s, 10)`: skip leading whitespace, read an optional
sign, then the longest prefix of decimal digits; `NaN` (`none`) when no digit
follows. -/
def jsParseInt (s : String) : Option Int :=
  let cs := s.toList.dropWhile fun c => c == ' ' || c == '\t' || c == '\n' || c == '\r'
  let core : List Char → Option Nat := fun l =>
    let ds := l.takeWhile Char.isDigit
    if ds.isEmpty then none else some (digitsToNat ds)
  match cs with
  | '-' :: rest => (core rest).map fun n => -(n : Int)
  | '+' :: rest => (core rest).map fun n => (n : Int)
  | l => (core l).map fun n => (n : Int)

/-- `n > 0` on the integer-or-NaN model; `NaN > 0` is false in JavaScript. -/
def jsGtZero : Option Int → Bool
  | none => false
  | some n => n > 0

/-- `pat` occurs as a contiguous sublist of `l` (JavaScript
`String.prototype.includes` over the character list). -/
def listContains : List Char → List Char → Bool
  | _, [] => true
  | [], _ :: _ => false
  | a :: l, pat => pat.isPrefixOf (a :: l) || listContains l pat

/-- JavaScript `s.includes(pat)`. -/
def containsStr (s pat : String) : Bool :=
  listContains s.toList pat.toList

/-- Split a character list at every occurrence of `sep` (the semantics of
`String.prototype.split` with a one-character separator). -/
def splitChars (sep : Char) : List Char → List (List Char)
  | [] => [[]]
  | c :: cs =>
      let r := splitChars sep cs
      if c == sep then [] :: r
      else
        match r with
        | [] => [[c]]
        | g :: gs => (c :: g) :: gs

/-- `s.split(sep)` for a one-character separator (every separator used by the
generator is one character: `':'`, `'T'`, `'-'`, `'.'`, `'x'`). -/
def splitOnChar (sep : Char) (s : String) : List String :=
  (splitChars sep s.toList).map fun l => ⟨l⟩

/-- Delete every occurrence of one character (one half of
`replace(/[-:]/g, '')`). -/
def removeChar (c : Char) (s : String) : String :=
  ⟨s.toList.filter fun a => a != c⟩

/-- `s.startsWith(pre)`. -/
def strStartsWith (s pre : String) : Bool :=
  pre.toList.isPrefixOf s.toList

/-- ASCII lower-casing of one character.  The generator only ever compares
lowercased text against ASCII table keys, for which ASCII case folding
coincides with JavaScript `toLowerCase`. -/
def asciiLower (c : Char) : Char :=
  if 'A' ≤ c && c ≤ 'Z' then Char.ofNat (c.toNat + 32) else c

/-- ASCII upper-casing of one character. -/
def asciiUpper (c : Char) : Char :=
  if 'a' ≤ c && c ≤ 'z' then Char.ofNat (c.toNat - 32) else c

/-- `s.toLowerCase()` (ASCII fragment). -/
def lowerStr (s : String) : String := ⟨s.toList.map asciiLower⟩

/-- `s.toUpperCase()` (ASCII fragment). -/
def upperStr (s : String) : String := ⟨s.toList.map asciiUpper⟩

/-- Whitespace test for `trim`. -/
def isSpaceChar (c : Char) : Bool :=
  c == ' ' || c == '\t' || c == '\n' || c == '\r'

/-- `s.trim()`. -/
def trimStr (s : String) : String :=
  ⟨((s.toList.dropWhile isSpaceChar).reverse.dropWhile isSpaceChar).reverse⟩

-- ==========================================================================
-- Clock / message id (src/services/ddexGenerator.ts lines 13-27)
-- ==========================================================================

/-- `new Date().toISOString().replace(/[-:]/g, '').split('.')[0]`. -/
def compactTimestamp (iso : String) : String :=
  (splitOnChar '.' (removeChar ':' (removeChar '-' iso))).headD ""

/-- `generateMessageId`, with the ambient clock reading and the random
alphanumeric suffix passed explicitly (they are the only effects). -/
def generateMessageId (nowIso rand : String) : String :=
  "DDEX" ++ compactTimestamp nowIso ++ rand

/-- `formatDate` on the string branch: `date.split('T')[0]`. -/
def formatDate (date : String) : String :=
  (splitOnChar 'T' date).headD ""

-- ==========================================================================
-- Lookup tables (src/types/ddex.ts)
-- ==========================================================================

/-- `ROLE_TO_DDEX_MAP`, in source key order (keys are pairwise distinct, so
object lookup coincides with first-match association-list lookup). -/
def ROLE_TO_DDEX_MAP : List (String × String) :=
  [("Artista", "MainArtist"),
   ("Compositor", "Composer"),
   ("Productor", "Producer"),
   ("Mezclador", "MixingEngineer"),
   ("Arreglista", "Arranger"),
   ("Ingeniero de sonido", "Engineer"),
   ("Director de música", "MusicDirector"),
   ("Ingeniero Maestro", "MasteringEngineer"),
   ("Coro", "Choir"),
   ("Orquesta", "Orchestra"),
   ("Solista", "Soloist"),
   ("Director de video", "VideoDirector"),
   ("Productor de video", "VideoProducer"),
   ("Liricista", "Lyricist"),
   ("Editor", "Editor"),
   ("artist", "MainArtist"),
   ("Artist", "MainArtist"),
   ("Composer", "Composer"),
   ("Producer", "Producer"),
   ("Featuring", "FeaturedArtist"),
   ("Featured", "FeaturedArtist"),
   ("Primary", "MainArtist"),
   ("Remixer", "Remixer"),
   ("DJ", "DJ"),
   ("Lyricist", "Lyricist"),
   ("Mixer", "Mixer"),
   ("Engineer", "Engineer"),
   ("Arranger", "Arranger"),
   ("admin", "Producer"),
   ("Participante", "Contributor"),
   ("Sello Discográfico", "RecordLabel"),
   ("Artista Invitado", "FeaturedArtist"),
   ("Otro", "Contributor")]

/-- `EXPLICIT_STATUS_MAP`. -/
def EXPLICIT_STATUS_MAP : List (String × String) :=
  [("explicit", "Explicit"),
   ("clean", "NotExplicit"),
   ("edited", "Edited"),
   ("", "Unknown")]

/-- `MIX_VERSION_MAP`, in source (insertion) order, which is the iteration
order of `Object.entries`. -/
def MIX_VERSION_MAP : List (String × String) :=
  [("remix", "Remix"),
   ("acoustic", "Acoustic"),
   ("live", "Live"),
   ("instrumental", "Instrumental"),
   ("acapella", "Acapella"),
   ("extended", "Extended"),
   ("radio", "RadioEdit"),
   ("demo", "Demo")]

-- ==========================================================================
-- Vocabulary mappers (src/services/ddexGenerator.ts lines 61-127)
-- ==========================================================================

/-- `mapRoleToDdex`: exact-key lookup, defaulting to `"Contributor"`. -/
def mapRoleToDdex (roleName : String) : String :=
  (ROLE_TO_DDEX_MAP.lookup roleName).getD "Contributor"

/-- `mapExplicitStatus`: falsy input yields null, else case-insensitive
lookup, unmapped values yield null. -/
def mapExplicitStatus (status : Option String) : Option String :=
  match status with
  | none => none
  | some s => if s == "" then none else EXPLICIT_STATUS_MAP.lookup (lowerStr s)

/-- The `for (const [key, value] of Object.entries(MIX_VERSION_MAP))` loop
with early return on the first key contained in the lowercased input. -/
def lookupSubstring : List (String × String) → String → Option String
  | [], _ => none
  | (k, v) :: rest, lv => if containsStr lv k then some v else lookupSubstring rest lv

/-- `mapMixVersion`: falsy input yields null, else the first
`MIX_VERSION_MAP` key contained (case-insensitively) in the input wins. -/
def mapMixVersion (mixVersion : Option String) : Option String :=
  match mixVersion with
  | none => none
  | some s => if s == "" then none else lookupSubstring MIX_VERSION_MAP (lowerStr s)

-- ==========================================================================
-- Data model (src/types/ddex.ts), restricted to the fields the generator
-- reads
-- ==========================================================================

/-- A track-level artist credit (`TrackArtist`). -/
structure TrackArtist where
  stage_name : Option String := none
  artist_name : Option String := none
  name : Option String := none
  role_name : Option String := none
deriving DecidableEq, Repr

/-- The nested label entity (`Label`). -/
structure Label where
  release_front_art_dimensions : Option String := none
deriving DecidableEq, Repr

/-- The release record (`Release`). -/
structure Release where
  id : Nat := 0
  upc : String := ""
  catalog : Option String := none
  front_pic : Option String := none
  date : String := ""
  version_title : Option String := none
  alt_title : Option String := none
  release_type_name : Option String := none
  cline : Option String := none
  pline : Option String := none
  cline_year : Option Int := none
  pline_year : Option Int := none
  label : Option Label := none
  label_name : Option String := none
  label_cline : Option String := none
  label_pline : Option String := none
  record_label : Option String := none
  artist_name : Option String := none
  stage_name : Option String := none
  user_name : Option String := none
deriving DecidableEq, Repr

/-- The track record (`Track`). -/
structure Track where
  id : Nat := 0
  song_name : String := ""
  mix_version : Option String := none
  has_lyrics : Int := 0
  isrc : String := ""
  explicit_status : Option String := none
  sound_url : Option String := none
  sound_length : String := ""
  audio_style : Option String := none
  main_genre_en : Option String := none
  secondary_genre_en : Option String := none
  song_language_code : Option String := none
  lyrics_language_code : Option String := none
  artists : Option (List TrackArtist) := none
deriving DecidableEq, Repr

/-- `ReleaseWithDetails`. -/
structure ReleaseWithDetails where
  release : Release
  tracks : List Track
deriving DecidableEq, Repr

-- ==========================================================================
-- Name resolution (src/services/ddexGenerator.ts lines 90-127)
-- ==========================================================================

/-- `getArtistName`: stage name, else legal artist name, else plain name,
else the literal fallback. -/
def getArtistName (artist : TrackArtist) : String :=
  jsOr artist.stage_name (jsOr artist.artist_name (jsOr artist.name "Unknown Artist"))

/-- `getReleaseArtistName`. -/
def getReleaseArtistName (release : Release) : String :=
  jsOr release.stage_name (jsOr release.artist_name (jsOr release.user_name "Unknown Artist"))

/-- `getLabelName`. -/
def getLabelName (release : Release) : String :=
  jsOr release.label_name (jsOr release.record_label "Independent Label")

/-- `getArtistsByRole`: credits whose mapped DDEX role equals `roleName`. -/
def getArtistsByRole (artists : List TrackArtist) (roleName : String) : List TrackArtist :=
  artists.filter fun a => mapRoleToDdex (a.role_name.getD "") == roleName

/-- `getPrimaryArtists`: the `MainArtist`-mapped credits when any exist, else
the credits whose raw role name contains `"artist"` case-insensitively. -/
def getPrimaryArtists (artists : List TrackArtist) : List TrackArtist :=
  let mainArtists := getArtistsByRole artists "MainArtist"
  if mainArtists.length > 0 then mainArtists
  else artists.filter fun a => strTruthy a.role_name && containsStr (lowerStr (a.role_name.getD "")) "artist"

-- ==========================================================================
-- Duration normalizer (src/services/ddexGenerator.ts lines 32-56)
-- ==========================================================================

/-- `convertToIsoDuration`. -/
def convertToIsoDuration (duration : String) : String :=
  if strStartsWith duration "PT" then duration
  else
    let parts := (splitOnChar ':' duration).map jsParseInt
    match parts with
    | [minutes, seconds] =>
        "PT" ++ numToString minutes ++ "M" ++ numToString seconds ++ "S"
    | [hours, minutes, seconds] =>
        if jsGtZero hours then
          "PT" ++ numToString hours ++ "H" ++ numToString minutes ++ "M"
            ++ numToString seconds ++ "S"
        else
          "PT" ++ numToString minutes ++ "M" ++ numToString seconds ++ "S"
    | _ => "PT0S"

-- ==========================================================================
-- Resource builder (src/services/ddexGenerator.ts lines 177-339)
-- ==========================================================================

/-- One `DisplayArtist` entry for a credit (lines 210-217). -/
def displayArtistXml (a : TrackArtist) : Xml :=
  .elem "DisplayArtist" []
    [.elem "PartyName" [] [leaf "FullName" (getArtistName a)],
     leaf "ArtistRole" (mapRoleToDdex (a.role_name.getD ""))]

/-- The fallback `DisplayArtist` entry naming the release main artist
(lines 221-226). -/
def fallbackDisplayArtistXml (releaseArtistName : String) : Xml :=
  .elem "DisplayArtist" []
    [.elem "PartyName" [] [leaf "FullName" releaseArtistName],
     leaf "ArtistRole" "MainArtist"]

/-- The display-artist entries of one sound recording (lines 209-227). -/
def displayArtistsXml (releaseArtistName : String) (trackArtists : List TrackArtist) : List Xml :=
  let primaryArtists := getPrimaryArtists trackArtists
  if primaryArtists.length > 0 then primaryArtists.map displayArtistXml
  else [fallbackDisplayArtistXml releaseArtistName]

/-- One `Contributor` entry for a credit (lines 230-238). -/
def contributorXml (a : TrackArtist) : Xml :=
  .elem "Contributor" []
    [.elem "PartyName" [] [leaf "FullName" (getArtistName a)],
     leaf "Role" (mapRoleToDdex (a.role_name.getD ""))]

/-- `release.label_pline || release.pline` (lines 252, 405). -/
def plineTextOf (release : Release) : Option String :=
  jsOrS release.label_pline release.pline

/-- `release.label_cline || release.cline` (line 395). -/
def clineTextOf (release : Release) : Option String :=
  jsOrS release.label_cline release.cline

/-- `release.pline_year || parseInt(release.date.split('-')[0], 10)`
(lines 253, 406). -/
def plineYearOf (release : Release) : Option Int :=
  jsOrN release.pline_year (jsParseInt ((splitOnChar '-' release.date).headD ""))

/-- `release.cline_year || parseInt(release.date.split('-')[0], 10)`
(line 396). -/
def clineYearOf (release : Release) : Option Int :=
  jsOrN release.cline_year (jsParseInt ((splitOnChar '-' release.date).headD ""))

/-- The `PLine` block (lines 254-259 and 407-412). -/
def plineXml (release : Release) : Xml :=
  .elem "PLine" []
    [leaf "Year" (numToString (plineYearOf release)),
     leaf "PLineText" ((plineTextOf release).getD "")]

/-- The `CLine` block (lines 397-402). -/
def clineXml (release : Release) : Xml :=
  .elem "CLine" []
    [leaf "Year" (numToString (clineYearOf release)),
     leaf "CLineText" ((clineTextOf release).getD "")]

/-- `track.audio_style?.toUpperCase() || 'MP3'` (line 292). -/
def audioCodecOf (track : Track) : String :=
  jsOr (track.audio_style.map upperStr) "MP3"

/-- The optional `ParentalWarningType` group (lines 246-249): present
exactly when the explicit-status mapper produced a value. -/
def parentalGroup (o : Option String) : List Xml :=
  match o with
  | some w => [leaf "ParentalWarningType" w]
  | none => []

/-- `TechnicalSoundRecordingDetails` (lines 288-302). -/
def technicalDetailsXml (track : Track) : Xml :=
  .elem "TechnicalSoundRecordingDetails" []
    ([leaf "TechnicalResourceDetailsReference" ("T" ++ toString track.id),
      leaf "AudioCodecType" (audioCodecOf track)]
     ++ (if strTruthy track.sound_url then
           [.elem "File" [] [leaf "URI" (track.sound_url.getD "")]]
         else []))

/-- One `SoundRecording` resource (lines 180-304), child order as created. -/
def soundRecordingXml (release : Release) (track : Track) : Xml :=
  let trackArtists := track.artists.getD []
  .elem "SoundRecording" []
    ([leaf "ResourceReference" ("A" ++ toString track.id),
      leaf "Type" "MusicalWorkSoundRecording",
      .elem "ResourceId" [] [leaf "ISRC" track.isrc],
      leaf "DisplayTitleText" track.song_name]
     ++ (if (mapMixVersion track.mix_version).isSome && strTruthy track.mix_version then
           [.elem "DisplayTitle" []
             [leaf "TitleText" (track.song_name ++ " (" ++ track.mix_version.getD "" ++ ")"),
              leaf "SubTitle" (track.mix_version.getD "")]]
         else [])
     ++ displayArtistsXml (getReleaseArtistName release) trackArtists
     ++ trackArtists.map contributorXml
     ++ (if strTruthy track.song_language_code then
           [leaf "LanguageOfPerformance" (track.song_language_code.getD "")]
         else [])
     ++ parentalGroup (mapExplicitStatus track.explicit_status)
     ++ (if strTruthy (plineTextOf release) then [plineXml release] else [])
     ++ (if strTruthy track.main_genre_en then
           [.elem "Genre" [] [leaf "GenreText" (track.main_genre_en.getD "")]]
         else [])
     ++ (if strTruthy track.secondary_genre_en then
           [.elem "Genre" [] [leaf "GenreText" (track.secondary_genre_en.getD "")]]
         else [])
     ++ [leaf "Duration" (convertToIsoDuration track.sound_length)]
     ++ (if track.has_lyrics != 0 then
           [leaf "ContainsLyrics" "true"]
           ++ (if strTruthy track.lyrics_language_code then
                 [leaf "LanguageOfLyrics" (track.lyrics_language_code.getD "")]
               else [])
         else [])
     ++ [technicalDetailsXml track])

/-- `release.label?.release_front_art_dimensions`. -/
def labelDims (release : Release) : Option String :=
  release.label.bind fun lab => lab.release_front_art_dimensions

/-- Image width/height nodes (lines 319-329): a truthy label dimension
string is split on `"x"`; only a two-part split yields nodes (height from
the second part, width from the first); a falsy dimension yields the fixed
3000×3000 default. -/
def imageDimsXml (release : Release) : List Xml :=
  if strTruthy (labelDims release) then
    match splitOnChar 'x' ((labelDims release).getD "") with
    | [w, h] => [leaf "ImageHeight" (trimStr h), leaf "ImageWidth" (trimStr w)]
    | _ => []
  else
    [leaf "ImageHeight" "3000", leaf "ImageWidth" "3000"]

/-- The cover-art `Image` resource (lines 307-337). -/
def imageXml (release : Release) : Xml :=
  .elem "Image" []
    [leaf "ResourceReference" "R1",
     leaf "Type" "FrontCoverImage",
     .elem "ResourceId" [] [leaf "ProprietaryId" ("IMG" ++ toString release.id)],
     .elem "TechnicalImageDetails" []
       ([leaf "TechnicalResourceDetailsReference" "T_IMG1",
         leaf "ImageCodecType" "JPEG"]
        ++ imageDimsXml release
        ++ [.elem "File" [] [leaf "URI" (release.front_pic.getD "")]])]

/-- The `ResourceList` (lines 177-339): one sound recording per track in
input order, then the image resource when a cover exists. -/
def resourceListXml (release : Release) (tracks : List Track) : Xml :=
  .elem "ResourceList" []
    (tracks.map (soundRecordingXml release)
     ++ (if strTruthy release.front_pic then [imageXml release] else []))

-- ==========================================================================
-- Release builder (src/services/ddexGenerator.ts lines 344-439)
-- ==========================================================================

/-- The DDEX release type (lines 349-350): default `"Album"`, and the source
label `"Sencillo"` translated to `"Single"`. -/
def ddexReleaseTypeOf (release : Release) : String :=
  let releaseType := jsOr release.release_type_name "Album"
  if releaseType == "Sencillo" then "Single" else releaseType

/-- `release.version_title || release.alt_title` (line 366). -/
def mainTitleOf (release : Release) : Option String :=
  jsOrS release.version_title release.alt_title

/-- The release-level genre nodes (lines 415-425): taken from the first
track only; the secondary genre is emitted only when the main one is. -/
def releaseGenresXml (tracks : List Track) : List Xml :=
  match tracks with
  | [] => []
  | t0 :: _ =>
      if strTruthy t0.main_genre_en then
        [.elem "Genre" [] [leaf "GenreText" (t0.main_genre_en.getD "")]]
        ++ (if strTruthy t0.secondary_genre_en then
              [.elem "Genre" [] [leaf "GenreText" (t0.secondary_genre_en.getD "")]]
            else [])
      else []

/-- The single `Release` node (lines 344-437), child order as created. -/
def releaseNodeXml (release : Release) (tracks : List Track) : Xml :=
  .elem "Release" []
    ([leaf "ReleaseReference" ("R" ++ toString release.id),
      leaf "ReleaseType" (ddexReleaseTypeOf release),
      .elem "ReleaseId" [] [leaf "ICPN" release.upc]]
     ++ (if strTruthy release.catalog then
           [.elem "ReleaseId" [] [leaf "CatalogNumber" (release.catalog.getD "")]]
         else [])
     ++ (if strTruthy (mainTitleOf release) then
           [leaf "DisplayTitleText" ((mainTitleOf release).getD "")]
         else [])
     ++ (if strTruthy release.alt_title && (release.alt_title != mainTitleOf release) then
           [.elem "DisplayTitle" []
             [leaf "TitleText" (release.alt_title.getD ""),
              leaf "TitleType" "AlternativeTitle"]]
         else [])
     ++ [.elem "DisplayArtist" []
           [.elem "PartyName" [] [leaf "FullName" (getReleaseArtistName release)],
            leaf "ArtistRole" "MainArtist"],
         .elem "AdministratingRecordCompany" []
           [.elem "PartyName" [] [leaf "FullName" (getLabelName release)]]]
     ++ (if strTruthy (clineTextOf release) then [clineXml release] else [])
     ++ (if strTruthy (plineTextOf release) then [plineXml release] else [])
     ++ releaseGenresXml tracks
     ++ [leaf "ReleaseDate" (formatDate release.date)]
     ++ tracks.map (fun t => leaf "ResourceReference" ("A" ++ toString t.id))
     ++ (if strTruthy release.front_pic then [leaf "ResourceReference" "R1"] else []))

/-- The `ReleaseList` wrapper. -/
def releaseListXml (release : Release) (tracks : List Track) : Xml :=
  .elem "ReleaseList" [] [releaseNodeXml release tracks]

-- ==========================================================================
-- Deal builder (src/services/ddexGenerator.ts lines 444-510)
-- ==========================================================================

/-- Deal 1: subscription on-demand streaming (lines 448-457). -/
def onDemandStreamDealXml (startDate : String) : Xml :=
  .elem "Deal" []
    [.elem "DealTerms" []
      [leaf "CommercialModelType" "SubscriptionModel",
       leaf "UseType" "OnDemandStream",
       leaf "TerritoryCode" "Worldwide",
       .elem "ValidityPeriod" [] [leaf "StartDate" startDate]]]

/-- Deal 2: pay-as-you-go permanent download with the hard-coded 0.99 unit
price (lines 460-472). -/
def permanentDownloadDealXml (startDate : String) : Xml :=
  .elem "Deal" []
    [.elem "DealTerms" []
      [leaf "CommercialModelType" "PayAsYouGoModel",
       leaf "UseType" "PermanentDownload",
       leaf "TerritoryCode" "Worldwide",
       .elem "ValidityPeriod" [] [leaf "StartDate" startDate],
       .elem "PriceInformation" []
         [leaf "BulkOrderWholesalePricePerUnit" "0.99"]]]

/-- Deal 3: ad-supported on-demand streaming (lines 475-484). -/
def adSupportedStreamDealXml (startDate : String) : Xml :=
  .elem "Deal" []
    [.elem "DealTerms" []
      [leaf "CommercialModelType" "AdvertisementSupportedModel",
       leaf "UseType" "OnDemandStream",
       leaf "TerritoryCode" "Worldwide",
       .elem "ValidityPeriod" [] [leaf "StartDate" startDate]]]

/-- Deal 4: subscription conditional download (lines 487-496). -/
def conditionalDownloadDealXml (startDate : String) : Xml :=
  .elem "Deal" []
    [.elem "DealTerms" []
      [leaf "CommercialModelType" "SubscriptionModel",
       leaf "UseType" "ConditionalDownload",
       leaf "TerritoryCode" "Worldwide",
       .elem "ValidityPeriod" [] [leaf "StartDate" startDate]]]

/-- Deal 5: user-made clips (lines 499-508). -/
def userMadeClipDealXml (startDate : String) : Xml :=
  .elem "Deal" []
    [.elem "DealTerms" []
      [leaf "CommercialModelType" "AdvertisementSupportedModel",
       leaf "UseType" "UserMadeClip",
       leaf "TerritoryCode" "Worldwide",
       .elem "ValidityPeriod" [] [leaf "StartDate" startDate]]]

/-- The five deal stanzas of the rich generator, in creation order. -/
def dealStanzas (release : Release) : List Xml :=
  [onDemandStreamDealXml (formatDate release.date),
   permanentDownloadDealXml (formatDate release.date),
   adSupportedStreamDealXml (formatDate release.date),
   conditionalDownloadDealXml (formatDate release.date),
   userMadeClipDealXml (formatDate release.date)]

/-- The `DealList` (lines 444-510). -/
def dealListXml (release : Release) : Xml :=
  .elem "DealList" []
    [.elem "ReleaseDeal" []
      (leaf "DealReleaseReference" ("R" ++ toString release.id) :: dealStanzas release)]

-- ==========================================================================
-- Relationship builder (src/services/ddexGenerator.ts lines 515-527)
-- ==========================================================================

/-- One relationship entry for the track at (0-based) index `idx`. -/
def relationshipEntryXml (release : Release) (idx : Nat) (track : Track) : Xml :=
  .elem "ResourceRelatedResourceReference" []
    [leaf "ResourceRelatedResourceReference" ("A" ++ toString track.id),
     leaf "ReleaseResourceReference" ("R" ++ toString release.id),
     leaf "SequenceNumber" (toString (idx + 1))]

/-- The `ReleaseRelationships` block: one entry per track in input order. -/
def relationshipsXml (release : Release) (tracks : List Track) : Xml :=
  .elem "ReleaseRelationships" [] (tracks.mapIdx fun i t => relationshipEntryXml release i t)

-- ==========================================================================
-- Message header and document assembly (lines 132-532)
-- ==========================================================================

/-- The `MessageHeader` subtree.  After the header chain the `doc` variable
is an xmlbuilder2 builder positioned at `MessageHeader`; the bare
`doc.up();` statements discard their results, so `resourceList`,
`ReleaseList`, `DealList` and `ReleaseRelationships` are created by
`doc.ele(...)` as children of `MessageHeader`. -/
def messageHeaderXml (messageId sentDateTime : String) (release : Release)
    (tracks : List Track) : Xml :=
  .elem "MessageHeader" []
    ([leaf "MessageThreadId" messageId,
      leaf "MessageId" messageId,
      leaf "MessageCreatedDateTime" sentDateTime,
      .elem "MessageSender" []
        [leaf "PartyId" "DPID:PADPIDA2014071501Y",
         .elem "PartyName" [] [leaf "FullName" (getLabelName release)]],
      .elem "MessageRecipient" []
        [leaf "PartyId" "DPID:PADPIDA2013011301U",
         .elem "PartyName" [] [leaf "FullName" "Digital Service Provider"]]]
     ++ (if strTruthy release.catalog then [leaf "MessageControlType" "TestMessage"] else [])
     ++ [resourceListXml release tracks,
         releaseListXml release tracks,
         dealListXml release]
     ++ (if tracks.length > 1 then [relationshipsXml release tracks] else []))

/-- `generateDdexXml` of the rich generator.  `now1` is the ISO timestamp
read inside `generateMessageId`, `now2` the one read for
`MessageCreatedDateTime`, and `rand` the random alphanumeric suffix; these
are the only ambient effects of the source function. -/
def generateDdexXml (now1 now2 rand : String) (releaseData : ReleaseWithDetails) : Xml :=
  .elem "ern:NewReleaseMessage"
    [("xmlns:ern", "http://ddex.net/xml/ern/38"),
     ("xmlns:xs", "http://www.w3.org/2001/XMLSchema-instance"),
     ("MessageSchemaVersionId", "ern/382"),
     ("LanguageAndScriptCode", "en")]
    [messageHeaderXml (generateMessageId now1 rand) now2 releaseData.release releaseData.tracks]

/-- Attribute rendering for serialization. -/
def renderAttrs (attrs : List (String × String)) : String :=
  attrs.foldl (fun acc kv => acc ++ " " ++ kv.fst ++ "=\x22" ++ kv.snd ++ "\x22") ""

mutual

/-- Serialize a node to text (`doc.end(...)`; indentation cosmetics aside,
this fixes an injective-on-structure textual image of the tree). -/
def render : Xml → String
  | .text s => s
  | .elem n attrs cs =>
      "<" ++ n ++ renderAttrs attrs ++ ">" ++ renderList cs ++ "</" ++ n ++ ">"

/-- Serialize a list of nodes. -/
def renderList : List Xml → String
  | [] => ""
  | x :: xs => render x ++ renderList xs

end

/-- The full generator: build the tree, then serialize.  This is a total
computable function: it returns a string on every well-typed input. -/
def generateDdex (now1 now2 rand : String) (releaseData : ReleaseWithDetails) : String :=
  render (generateDdexXml now1 now2 rand releaseData)

-- ==========================================================================
-- The simpler generator variant (second generateDdexXml source file):
-- only its deal section is needed by the claims.  Its builder chain closes
-- the header correctly but leaves `doc` at `ResourceList`, so its later
-- sections nest under `ResourceList`; its `DealList` contents are modelled
-- here.
-- ==========================================================================

namespace VariantB

/-- The fields of the simpler variant's release record that its deal section
reads. -/
structure ReleaseB where
  id : Nat := 0
  releaseDate : String := ""
deriving DecidableEq, Repr

/-- The two deal stanzas of the simpler generator (its lines 241-264): the
subscription streaming deal then the 0.99 permanent-download deal. -/
def dealStanzasB (release : ReleaseB) : List Xml :=
  [onDemandStreamDealXml (formatDate release.releaseDate),
   permanentDownloadDealXml (formatDate release.releaseDate)]

/-- The simpler generator's `DealList` (its lines 238-265). -/
def dealListXmlB (release : ReleaseB) : Xml :=
  .elem "DealList" []
    [.elem "ReleaseDeal" []
      (leaf "DealReleaseReference" ("R" ++ toString release.id) :: dealStanzasB release)]

end VariantB

-- ==========================================================================
-- Shared helper lemmas
-- ==========================================================================

@[simp] theorem nameOf_elem (n : String) (a : List (String × String)) (cs : List Xml) :
    (Xml.elem n a cs).nameOf = n := rfl

@[simp] theorem nameOf_leaf (n v : String) : (leaf n v).nameOf = n := rfl

@[simp] theorem childrenOf_elem (n : String) (a : List (String × String)) (cs : List Xml) :
    (Xml.elem n a cs).childrenOf = cs := rfl

@[simp] theorem textOf1_leaf (n v : String) : (leaf n v).textOf1 = v := rfl

@[simp] theorem filter_ite (p : Xml → Bool) (c : Prop) [Decidable c] (a b : List Xml) :
    (if c then a else b).filter p = if c then a.filter p else b.filter p :=
  apply_ite _ _ _ _

theorem filter_of_names {p : Xml → Bool} {l : List Xml}
    (h : ∀ x ∈ l, p x = false) : l.filter p = [] :=
  List.filter_eq_nil_iff.mpr (by simpa using h)

theorem elemsNamed_elem (m n : String) (a : List (String × String)) (cs : List Xml) :
    elemsNamed m (Xml.elem n a cs) = cs.filter fun c => c.nameOf == m := rfl

theorem nameOf_mem_displayArtistsXml (ran : String) (tas : List TrackArtist) :
    ∀ x ∈ displayArtistsXml ran tas, x.nameOf = "DisplayArtist" := by
  intro x hx
  simp only [displayArtistsXml] at hx
  split at hx
  · obtain ⟨a, -, rfl⟩ := List.mem_map.mp hx
    rfl
  · simp only [List.mem_singleton] at hx
    subst hx
    rfl

theorem nameOf_mem_contributors (tas : List TrackArtist) :
    ∀ x ∈ tas.map contributorXml, x.nameOf = "Contributor" := by
  intro x hx
  obtain ⟨a, _, rfl⟩ := List.mem_map.mp hx
  rfl

theorem nameOf_mem_parentalGroup (o : Option String) :
    ∀ x ∈ parentalGroup o, x.nameOf = "ParentalWarningType" := by
  intro x hx
  cases o with
  | none => simp [parentalGroup] at hx
  | some w =>
      simp only [parentalGroup, List.mem_singleton] at hx
      subst hx
      rfl

@[simp] theorem nameOf_resourceListXml (r : Release) (ts : List Track) :
    (resourceListXml r ts).nameOf = "ResourceList" := rfl

@[simp] theorem nameOf_releaseListXml (r : Release) (ts : List Track) :
    (releaseListXml r ts).nameOf = "ReleaseList" := rfl

@[simp] theorem nameOf_dealListXml (r : Release) :
    (dealListXml r).nameOf = "DealList" := rfl

@[simp] theorem nameOf_relationshipsXml (r : Release) (ts : List Track) :
    (relationshipsXml r ts).nameOf = "ReleaseRelationships" := rfl

@[simp] theorem nameOf_soundRecordingXml (r : Release) (t : Track) :
    (soundRecordingXml r t).nameOf = "SoundRecording" := rfl

@[simp] theorem nameOf_imageXml (r : Release) :
    (imageXml r).nameOf = "Image" := rfl

theorem lookupSubstring_eq_find? (l : List (String × String)) (s : String) :
    lookupSubstring l s = (l.find? fun kv => containsStr s kv.1).map Prod.snd := by
  induction l with
  | nil => rfl
  | cons kv rest ih =>
      obtain ⟨k, v⟩ := kv
      by_cases h : containsStr s k = true
      · simp only [lookupSubstring, if_pos h]
        rw [List.find?_cons_of_pos rest
          (show (fun kv => containsStr s kv.1) (k, v) = true by simpa using h)]
        rfl
      · simp only [lookupSubstring, if_neg h]
        rw [List.find?_cons_of_neg rest
          (show ¬(fun kv => containsStr s kv.1) (k, v) = true by simpa using h), ih]

theorem filter_displayArtists {n : String} (ran : String) (tas : List TrackArtist)
    (h : (("DisplayArtist" : String) == n) = false) :
    (displayArtistsXml ran tas).filter (fun c => c.nameOf == n) = [] :=
  filter_of_names fun x hx => by rw [nameOf_mem_displayArtistsXml ran tas x hx]; exact h

theorem filter_contributors {n : String} (tas : List TrackArtist)
    (h : (("Contributor" : String) == n) = false) :
    (tas.map contributorXml).filter (fun c => c.nameOf == n) = [] :=
  filter_of_names fun x hx => by rw [nameOf_mem_contributors tas x hx]; exact h

theorem filter_parentalGroup {n : String} (o : Option String)
    (h : (("ParentalWarningType" : String) == n) = false) :
    (parentalGroup o).filter (fun c => c.nameOf == n) = [] :=
  filter_of_names fun x hx => by rw [nameOf_mem_parentalGroup o x hx]; exact h

theorem nameOf_mem_releaseGenres (tracks : List Track) :
    ∀ x ∈ releaseGenresXml tracks, x.nameOf = "Genre" := by
  intro x hx
  rcases tracks with _ | ⟨t0, rest⟩
  · simp [releaseGenresXml] at hx
  · simp only [releaseGenresXml] at hx
    split at hx
    · rcases List.mem_append.mp hx with hx' | hx'
      · simp only [List.mem_singleton] at hx'; subst hx'; rfl
      · split at hx'
        · simp only [List.mem_singleton] at hx'; subst hx'; rfl
        · simp at hx'
    · simp at hx

theorem filter_releaseGenres {n : String} (tracks : List Track)
    (h : (("Genre" : String) == n) = false) :
    (releaseGenresXml tracks).filter (fun c => c.nameOf == n) = [] :=
  filter_of_names fun x hx => by rw [nameOf_mem_releaseGenres tracks x hx]; exact h

theorem filter_soundRecordings {n : String} (release : Release) (tracks : List Track)
    (h : (("SoundRecording" : String) == n) = false) :
    (tracks.map (soundRecordingXml release)).filter (fun c => c.nameOf == n) = [] :=
  filter_of_names fun x hx => by
    obtain ⟨t, -, rfl⟩ := List.mem_map.mp hx
    rw [nameOf_soundRecordingXml]; exact h

theorem filter_refLeaves {n : String} (tracks : List Track)
    (h : (("ResourceReference" : String) == n) = false) :
    ((tracks.map fun t => leaf "ResourceReference" ("A" ++ toString t.id)).filter
      (fun c => c.nameOf == n)) = [] :=
  filter_of_names fun x hx => by
    obtain ⟨t, -, rfl⟩ := List.mem_map.mp hx
    simpa using h

@[simp] theorem map_ite (f : Xml → Xml) (c : Prop) [Decidable c] (a b : List Xml) :
    (if c then a else b).map f = if c then a.map f else b.map f :=
  apply_ite _ _ _ _

-- ==========================================================================
-- Concrete sample inputs used by evaluation theorems and witnesses
-- ==========================================================================

/-- A minimal well-formed track. -/
def demoTrack : Track :=
  { id := 7, song_name := "Song", isrc := "ISRC1", sound_length := "3:45" }

/-- A second track, to exercise multi-track behavior. -/
def demoTrack2 : Track :=
  { id := 9, song_name := "Song Two", isrc := "ISRC2", sound_length := "4:05" }

/-- A minimal well-formed release. -/
def demoRelease : Release :=
  { id := 3, upc := "123456789012", date := "2024-05-01" }

/-- Single-track input. -/
def demoInput : ReleaseWithDetails := { release := demoRelease, tracks := [demoTrack] }

/-- Two-track input. -/
def demoInput2 : ReleaseWithDetails :=
  { release := demoRelease, tracks := [demoTrack, demoTrack2] }

/-- The document generated from `demoInput` at a fixed clock and random
suffix. -/
def demoDoc : Xml :=
  generateDdexXml "2024-05-01T10:30:00.000Z" "2024-05-01T10:30:00.000Z" "ABC123" demoInput

-- ==========================================================================
-- C1
-- ==========================================================================

/-- C1: the claim says the root's direct children are, as siblings, the
message header, resource list, release list, deal list and (conditionally)
relationship block.  Evaluating the generator shows the opposite: because
the bare `doc.up();` statements do not move the xmlbuilder2 builder, the
root's only child is `MessageHeader`, and the resource/release/deal lists
are nested inside it.  (The relationship block of a multi-track release
lands inside `MessageHeader` too.)  The root element and its namespace,
schema-version and language attributes are as described. -/
theorem c1_rootStructure_eval :
    demoDoc.attrsOf
      = [("xmlns:ern", "http://ddex.net/xml/ern/38"),
         ("xmlns:xs", "http://www.w3.org/2001/XMLSchema-instance"),
         ("MessageSchemaVersionId", "ern/382"),
         ("LanguageAndScriptCode", "en")]
    ∧ demoDoc.childrenOf.map Xml.nameOf = ["MessageHeader"]
    ∧ (demoDoc.childrenOf.headD (Xml.text "")).childrenOf.map Xml.nameOf
        = ["MessageThreadId", "MessageId", "MessageCreatedDateTime", "MessageSender",
           "MessageRecipient", "ResourceList", "ReleaseList", "DealList"]
    ∧ ((generateDdexXml "t" "t" "r" demoInput2).childrenOf.headD (Xml.text "")).childrenOf.map
        Xml.nameOf
        = ["MessageThreadId", "MessageId", "MessageCreatedDateTime", "MessageSender",
           "MessageRecipient", "ResourceList", "ReleaseList", "DealList",
           "ReleaseRelationships"] := by
  refine ⟨rfl, by decide, by decide, by decide⟩

-- ==========================================================================
-- C2
-- ==========================================================================

/-- C2: `convertToIsoDuration` returns inputs already in ISO form (i.e.
starting with `PT`) unchanged; a 2-part `M:S` input yields
`PT<M>M<S>S` (minutes:seconds, never hours:minutes); a 3-part `H:M:S`
input yields `PT<H>H<M>M<S>S` with the hours component omitted when the
parsed hours value is zero; and every input of any other shape yields
exactly `"PT0S"`.  The spec's examples are also checked. -/
theorem c2_convertToIsoDuration_spec (s : String) :
    (strStartsWith s "PT" = true → convertToIsoDuration s = s)
    ∧ (strStartsWith s "PT" = false →
        (∀ a b, splitOnChar ':' s = [a, b] →
          convertToIsoDuration s
            = "PT" ++ numToString (jsParseInt a) ++ "M" ++ numToString (jsParseInt b) ++ "S")
        ∧ (∀ a b c, splitOnChar ':' s = [a, b, c] →
            (jsParseInt a = some 0 →
              convertToIsoDuration s
                = "PT" ++ numToString (jsParseInt b) ++ "M" ++ numToString (jsParseInt c) ++ "S")
            ∧ (∀ hrs : Int, jsParseInt a = some hrs → 0 < hrs →
                convertToIsoDuration s
                  = "PT" ++ numToString (jsParseInt a) ++ "H" ++ numToString (jsParseInt b)
                      ++ "M" ++ numToString (jsParseInt c) ++ "S"))
        ∧ ((splitOnChar ':' s).length ≠ 2 → (splitOnChar ':' s).length ≠ 3 →
            convertToIsoDuration s = "PT0S"))
    ∧ convertToIsoDuration "3:45" = "PT3M45S"
    ∧ convertToIsoDuration "1:02:03" = "PT1H2M3S"
    ∧ convertToIsoDuration "0:02:03" = "PT2M3S"
    ∧ convertToIsoDuration "PT1H2M3S" = "PT1H2M3S"
    ∧ convertToIsoDuration "bad input" = "PT0S" := by
  refine ⟨?_, ?_, by decide, by decide, by decide, by decide, by decide⟩
  · intro h
    simp [convertToIsoDuration, h]
  · intro h
    refine ⟨?_, ?_, ?_⟩
    · intro a b hab
      simp [convertToIsoDuration, h, hab]
    · intro a b c habc
      constructor
      · intro ha
        simp [convertToIsoDuration, h, habc, ha, jsGtZero]
      · intro hrs ha hpos
        simp [convertToIsoDuration, h, habc, ha, jsGtZero, hpos]
    · intro h2 h3
      rcases hl : splitOnChar ':' s with _ | ⟨a, _ | ⟨b, _ | ⟨c, _ | ⟨d, tl⟩⟩⟩⟩ <;>
        simp_all [convertToIsoDuration, h, hl]

/-- Witness for C2, instantiating the 2-part clause at `"3:45"`. -/
theorem c2_convertToIsoDuration_spec_witness :
    convertToIsoDuration "3:45"
      = "PT" ++ numToString (jsParseInt "3") ++ "M" ++ numToString (jsParseInt "45") ++ "S" :=
  ((c2_convertToIsoDuration_spec "3:45").2.1 (by decide)).1 "3" "45" (by decide)

-- ==========================================================================
-- C6
-- ==========================================================================

/-- C6: the mix-version mapper is a case-insensitive substring containment
test against the fixed ordered keyword table: the result is the value of
the first table key (in table order) contained in the lowercased input
(`List.find?` captures first-match); an input containing no key, and an
absent input, give no value; `"Radio Edit"` maps to the radio-edit type;
and on a tie (`"Radio Remix"`) the earlier table entry wins. -/
theorem c6_mapMixVersion_spec :
    (∀ s : String,
      mapMixVersion (some s)
        = (MIX_VERSION_MAP.find? fun kv => containsStr (lowerStr s) kv.1).map Prod.snd)
    ∧ mapMixVersion none = none
    ∧ (∀ s : String, (∀ kv ∈ MIX_VERSION_MAP, containsStr (lowerStr s) kv.1 = false) →
        mapMixVersion (some s) = none)
    ∧ mapMixVersion (some "Radio Edit") = some "RadioEdit"
    ∧ mapMixVersion (some "Radio Remix") = some "Remix"
    ∧ mapMixVersion (some "Plain Title") = none := by
  have main : ∀ s : String,
      mapMixVersion (some s)
        = (MIX_VERSION_MAP.find? fun kv => containsStr (lowerStr s) kv.1).map Prod.snd := by
    intro s
    by_cases hs : s = ""
    · subst hs; decide
    · simpa [mapMixVersion, hs] using lookupSubstring_eq_find? MIX_VERSION_MAP (lowerStr s)
  refine ⟨main, rfl, ?_, by decide, by decide, by decide⟩
  intro s hall
  rw [main s, List.find?_eq_none.mpr fun kv hkv => by simp [hall kv hkv]]
  rfl

/-- Witness for C6, instantiating the no-keyword clause at a concrete
input. -/
theorem c6_mapMixVersion_spec_witness :
    mapMixVersion (some "Plain Title") = none :=
  c6_mapMixVersion_spec.2.2.1 "Plain Title" (by decide)

-- ==========================================================================
-- C3
-- ==========================================================================

/-- Claim-side definition following C3's words: all credits whose mapped
DDEX role is `"MainArtist"` if any exist; otherwise all credits whose
mapped role text contains the substring `"artist"`; otherwise, only when
the track has no credits at all, the single release-artist fallback. -/
def claimPrimaryGroup (trackArtists : List TrackArtist) : List TrackArtist :=
  let mains := trackArtists.filter fun a => mapRoleToDdex (a.role_name.getD "") == "MainArtist"
  if mains.length > 0 then mains
  else trackArtists.filter fun a => containsStr (mapRoleToDdex (a.role_name.getD "")) "artist"

/-- Claim-side display-artist list per C3. -/
def claimDisplayArtists (releaseArtistName : String) (trackArtists : List TrackArtist) : List Xml :=
  if trackArtists.isEmpty then [fallbackDisplayArtistXml releaseArtistName]
  else (claimPrimaryGroup trackArtists).map displayArtistXml

/-- A credit whose role maps to `"Producer"`: it is in no primary group
under either reading, but the code still emits a fallback entry. -/
def producerOnlyCredit : TrackArtist := { role_name := some "Producer", name := some "Pat" }

/-- C3 counterexample: for a track whose only credit is a producer, the
code emits one fallback display-artist entry naming the release artist
(the fallback fires whenever the primary group is empty), while the claim
allows the fallback only when the track has no credits at all and so
predicts no display-artist entry here. -/
theorem c3_displayArtists_counterexample :
    displayArtistsXml "Main Act" [producerOnlyCredit]
      ≠ claimDisplayArtists "Main Act" [producerOnlyCredit] := by
  intro heq
  have hlen := congrArg List.length heq
  have h1 : (displayArtistsXml "Main Act" [producerOnlyCredit]).length = 1 := by decide
  have h2 : (claimDisplayArtists "Main Act" [producerOnlyCredit]).length = 0 := by decide
  rw [h1, h2] at hlen
  exact absurd hlen (by decide)

/-- Amended C3: the display-artist entries are exactly: all credits whose
mapped DDEX role is `"MainArtist"` if any exist; otherwise all credits
whose raw (unmapped) role name contains `"artist"` case-insensitively;
otherwise — whether or not the track has credits — a single fallback entry
for the release-level main artist. -/
def amendedDisplayArtists (releaseArtistName : String) (trackArtists : List TrackArtist) :
    List Xml :=
  let mains := trackArtists.filter fun a => mapRoleToDdex (a.role_name.getD "") == "MainArtist"
  let roleNameArtists := trackArtists.filter fun a =>
    strTruthy a.role_name && containsStr (lowerStr (a.role_name.getD "")) "artist"
  if mains.length > 0 then mains.map displayArtistXml
  else if roleNameArtists.length > 0 then roleNameArtists.map displayArtistXml
  else [fallbackDisplayArtistXml releaseArtistName]

/-- C3 (amended) holds: the generator's display-artist selection equals the
amended three-branch cascade. -/
theorem c3_displayArtists_amended (ran : String) (tas : List TrackArtist) :
    displayArtistsXml ran tas = amendedDisplayArtists ran tas := by
  simp only [displayArtistsXml, amendedDisplayArtists, getPrimaryArtists, getArtistsByRole]
  by_cases hm :
      (tas.filter fun a => mapRoleToDdex (a.role_name.getD "") == "MainArtist").length > 0
  · simp [hm]
  · by_cases hr :
        (tas.filter fun a =>
          strTruthy a.role_name && containsStr (lowerStr (a.role_name.getD "")) "artist").length
          > 0
    · simp [hm, hr]
    · simp [hm, hr]

-- ==========================================================================
-- C7
-- ==========================================================================

/-- A release whose date has no parsable leading year but which carries
C-line text and no explicit C-line year. -/
def malformedRelease : Release :=
  { id := 1, upc := "X", date := "TBD", cline := some "(C) 2024 Tuneo" }

/-- C7: the claim (and spec §7) require a typed "malformed input" error
when the release date has no parsable leading year and copyright text is
present without an explicit year.  The generator has no error path at all:
evaluating it on such input shows `parseInt` yielding `NaN`, which is
silently rendered as the string `"NaN"` inside the `CLine` year (and the
`ReleaseDate` passes the unparsable text through).  This evaluation
documents the divergence. -/
theorem c7_malformedYear_eval :
    numToString (clineYearOf malformedRelease) = "NaN"
    ∧ elemsNamed "CLine" (releaseNodeXml malformedRelease [])
        = [Xml.elem "CLine" [] [leaf "Year" "NaN", leaf "CLineText" "(C) 2024 Tuneo"]]
    ∧ (elemsNamed "ReleaseDate" (releaseNodeXml malformedRelease [])).map Xml.textOf1
        = [""] := by
  refine ⟨by decide, rfl, rfl⟩

-- ==========================================================================
-- C4
-- ==========================================================================

/-- Texts of the `ResourceReference` children of a node, in document order. -/
def resourceRefTexts (x : Xml) : List String :=
  (elemsNamed "ResourceReference" x).map Xml.textOf1

theorem filter_refLeaf_map (l : List Track) :
    ((l.map fun t => leaf "ResourceReference" ("A" ++ toString t.id)).filter
      fun c => c.nameOf == "ResourceReference")
      = l.map fun t => leaf "ResourceReference" ("A" ++ toString t.id) := by
  induction l with
  | nil => rfl
  | cons t rest ih => simp [ih]

/-- C4: the release node's resource-reference texts are exactly the tracks'
references `A<id>` in input order, followed by `R1` iff a cover image
exists; and the relationship block has one entry per track in input order
whose sequence numbers are `1, 2, 3, ...` (1-based input positions) and
whose track references mirror the same order.  The block itself is placed
in the document exactly when the release has more than one track (as the
last child of the header, where the builder slip puts every section). -/
theorem c4_resourceReference_ordering (release : Release) (tracks : List Track)
    (mid ts : String) :
    resourceRefTexts (releaseNodeXml release tracks)
      = tracks.map (fun t => "A" ++ toString t.id)
        ++ (if strTruthy release.front_pic then ["R1"] else [])
    ∧ ((relationshipsXml release tracks).childrenOf.map fun e =>
        (elemsNamed "SequenceNumber" e).map Xml.textOf1)
      = (List.range tracks.length).map (fun i => [toString (i + 1)])
    ∧ ((relationshipsXml release tracks).childrenOf.map fun e =>
        (elemsNamed "ResourceRelatedResourceReference" e).map Xml.textOf1)
      = tracks.map (fun t => ["A" ++ toString t.id])
    ∧ (1 < tracks.length →
        (messageHeaderXml mid ts release tracks).childrenOf.getLast?
          = some (relationshipsXml release tracks)) := by
  refine ⟨?_, ?_, ?_, ?_⟩
  · rcases tracks with _ | ⟨t0, rest⟩ <;>
      simp [resourceRefTexts, elemsNamed, releaseNodeXml, List.filter_append,
        filter_refLeaf_map, clineXml, plineXml, releaseGenresXml, List.map_map,
        Function.comp, apply_ite (List.map Xml.textOf1)]
  · rw [relationshipsXml, childrenOf_elem, List.mapIdx_eq_enum_map, List.map_map,
      ← List.enum_map_fst tracks, List.map_map]
    refine List.map_congr_left fun p _ => ?_
    rfl
  · conv_rhs => rw [← List.enum_map_snd tracks]
    rw [relationshipsXml, childrenOf_elem, List.mapIdx_eq_enum_map, List.map_map,
      List.map_map]
    refine List.map_congr_left fun p _ => ?_
    rfl
  · intro h
    rw [messageHeaderXml, childrenOf_elem, if_pos h, List.getLast?_concat]

/-- Witness for C4 at the two-track sample input. -/
theorem c4_resourceReference_ordering_witness :
    resourceRefTexts (releaseNodeXml demoRelease [demoTrack, demoTrack2]) = ["A7", "A9"]
    ∧ (messageHeaderXml "m" "t" demoRelease [demoTrack, demoTrack2]).childrenOf.getLast?
        = some (relationshipsXml demoRelease [demoTrack, demoTrack2]) := by
  have h := c4_resourceReference_ordering demoRelease [demoTrack, demoTrack2] "m" "t"
  exact ⟨by rw [h.1]; decide, h.2.2.2 (by decide)⟩

-- ==========================================================================
-- C5
-- ==========================================================================

/-- The `TerritoryCode` texts inside a deal's `DealTerms`. -/
def territoryTexts (d : Xml) : List String :=
  (elemsNamed "TerritoryCode" (firstChild d)).map Xml.textOf1

/-- The `ValidityPeriod` start-date texts inside a deal's `DealTerms`. -/
def startDateTexts (d : Xml) : List String :=
  (elemsNamed "ValidityPeriod" (firstChild d)).map fun v => Xml.textOf1 (firstChild v)

/-- The `PriceInformation` unit-price texts inside a deal's `DealTerms`. -/
def priceTexts (d : Xml) : List String :=
  (elemsNamed "PriceInformation" (firstChild d)).map fun pr => Xml.textOf1 (firstChild pr)

/-- C5: the deal catalog is fixed: five stanzas in the rich generator (two
in the simpler variant) regardless of release content; every stanza is
scoped `Worldwide` and validity-starts on the formatted release date; only
the permanent-download stanza (the second) carries a price, the hard-coded
`0.99`; and apart from the start date no stanza field varies with the
input — two releases with equal formatted dates get identical stanzas. -/
theorem c5_dealCatalog_fixed (release release' : Release) (rb : VariantB.ReleaseB) :
    (dealStanzas release).length = 5
    ∧ (∀ d ∈ dealStanzas release,
        territoryTexts d = ["Worldwide"] ∧ startDateTexts d = [formatDate release.date])
    ∧ (dealStanzas release).map priceTexts = [[], ["0.99"], [], [], []]
    ∧ (formatDate release.date = formatDate release'.date →
        dealStanzas release = dealStanzas release')
    ∧ (VariantB.dealStanzasB rb).length = 2
    ∧ (∀ d ∈ VariantB.dealStanzasB rb,
        territoryTexts d = ["Worldwide"] ∧ startDateTexts d = [formatDate rb.releaseDate])
    ∧ (VariantB.dealStanzasB rb).map priceTexts = [[], ["0.99"]] := by
  refine ⟨rfl, ?_, rfl, ?_, rfl, ?_, rfl⟩
  · intro d hd
    simp only [dealStanzas, List.mem_cons, List.not_mem_nil, or_false] at hd
    rcases hd with rfl | rfl | rfl | rfl | rfl <;> exact ⟨rfl, rfl⟩
  · intro h
    rw [dealStanzas, dealStanzas, h]
  · intro d hd
    simp only [VariantB.dealStanzasB, List.mem_cons, List.not_mem_nil, or_false] at hd
    rcases hd with rfl | rfl <;> exact ⟨rfl, rfl⟩

/-- Witness for C5: the streaming stanza of the sample release is
`Worldwide` and starts on the release date, and equal formatted dates give
equal stanzas. -/
theorem c5_dealCatalog_fixed_witness :
    territoryTexts (onDemandStreamDealXml (formatDate demoRelease.date)) = ["Worldwide"]
    ∧ dealStanzas demoRelease = dealStanzas demoRelease := by
  have h := c5_dealCatalog_fixed demoRelease demoRelease { id := 1, releaseDate := "2024-05-01" }
  exact ⟨(h.2.1 _ (by rw [dealStanzas]; exact List.mem_cons_self _ _)).1,
    h.2.2.2.1 rfl⟩

-- ==========================================================================
-- C10
-- ==========================================================================

/-- C10: the message header contains a `MessageControlType` element with
text `TestMessage` exactly when the release's catalog number is present
and non-empty (JavaScript truthiness of `release.catalog`); otherwise no
such element is produced anywhere in the header. -/
theorem c10_messageControlType_iff (mid ts : String) (release : Release)
    (tracks : List Track) :
    elemsNamed "MessageControlType" (messageHeaderXml mid ts release tracks)
      = if strTruthy release.catalog then [leaf "MessageControlType" "TestMessage"] else [] := by
  simp [elemsNamed, messageHeaderXml, List.filter_append, filter_ite]

-- ==========================================================================
-- C8
-- ==========================================================================

/-- C8: generation is total — the embedding is a total computable function,
so it returns a string on every well-typed input (first conjunct) — and
every absent optional field produces its documented omission or fallback:
no version-title block without a mix version; no parental warning, no
performance language, no lyrics flags, no genres without their sources;
`MP3` codec fallback; no file block without an audio URL; the
`Independent Label` and `Unknown Artist` name fallbacks; a single
(UPC-only) release identifier and no message-control element without a
catalog number; no image resource without a cover; omitted C-line/P-line
blocks without copyright text; and the release-artist fallback entry for a
track with no credit list. -/
theorem c8_totality_fallbacks (release : Release) (track : Track) (tracks : List Track)
    (a : TrackArtist) (input : ReleaseWithDetails) (n1 n2 rand : String) :
    (∃ s : String, generateDdex n1 n2 rand input = s)
    ∧ (track.mix_version = none →
        elemsNamed "DisplayTitle" (soundRecordingXml release track) = [])
    ∧ (track.explicit_status = none →
        elemsNamed "ParentalWarningType" (soundRecordingXml release track) = [])
    ∧ (track.song_language_code = none →
        elemsNamed "LanguageOfPerformance" (soundRecordingXml release track) = [])
    ∧ (track.has_lyrics = 0 →
        elemsNamed "ContainsLyrics" (soundRecordingXml release track) = []
        ∧ elemsNamed "LanguageOfLyrics" (soundRecordingXml release track) = [])
    ∧ (track.main_genre_en = none → track.secondary_genre_en = none →
        elemsNamed "Genre" (soundRecordingXml release track) = [])
    ∧ (track.audio_style = none →
        (elemsNamed "AudioCodecType" (technicalDetailsXml track)).map Xml.textOf1 = ["MP3"])
    ∧ (track.sound_url = none → elemsNamed "File" (technicalDetailsXml track) = [])
    ∧ (release.label_name = none → release.record_label = none →
        getLabelName release = "Independent Label")
    ∧ (a.stage_name = none → a.artist_name = none → a.name = none →
        getArtistName a = "Unknown Artist")
    ∧ (release.catalog = none →
        elemsNamed "ReleaseId" (releaseNodeXml release tracks)
          = [Xml.elem "ReleaseId" [] [leaf "ICPN" release.upc]]
        ∧ elemsNamed "MessageControlType" (messageHeaderXml n1 n2 release tracks) = [])
    ∧ (release.front_pic = none →
        elemsNamed "Image" (resourceListXml release tracks) = [])
    ∧ (release.label_cline = none → release.cline = none →
        elemsNamed "CLine" (releaseNodeXml release tracks) = [])
    ∧ (release.label_pline = none → release.pline = none →
        elemsNamed "PLine" (soundRecordingXml release track) = []
        ∧ elemsNamed "PLine" (releaseNodeXml release tracks) = [])
    ∧ (track.artists = none →
        elemsNamed "DisplayArtist" (soundRecordingXml release track)
          = [fallbackDisplayArtistXml (getReleaseArtistName release)]) := by
  refine ⟨⟨_, rfl⟩, ?_, ?_, ?_, ?_, ?_, ?_, ?_, ?_, ?_, ?_, ?_, ?_, ?_, ?_⟩ <;> intro h
  case _ =>
    simp [elemsNamed, soundRecordingXml, h, List.filter_append, filter_ite,
      filter_displayArtists, filter_contributors, filter_parentalGroup,
      technicalDetailsXml, plineXml, mapMixVersion]
  case _ =>
    simp [elemsNamed, soundRecordingXml, h, List.filter_append, filter_ite,
      filter_displayArtists, filter_contributors, parentalGroup, mapExplicitStatus,
      technicalDetailsXml, plineXml]
  case _ =>
    simp [elemsNamed, soundRecordingXml, h, List.filter_append, filter_ite,
      filter_displayArtists, filter_contributors, filter_parentalGroup,
      technicalDetailsXml, plineXml, strTruthy]
  case _ =>
    constructor <;>
      simp [elemsNamed, soundRecordingXml, h, List.filter_append, filter_ite,
        filter_displayArtists, filter_contributors, filter_parentalGroup,
        technicalDetailsXml, plineXml]
  case _ =>
    intro h2
    simp [elemsNamed, soundRecordingXml, h, h2, List.filter_append, filter_ite,
      filter_displayArtists, filter_contributors, filter_parentalGroup,
      technicalDetailsXml, plineXml, strTruthy]
  case _ =>
    simp [elemsNamed, technicalDetailsXml, h, List.filter_append, filter_ite,
      audioCodecOf, jsOr]
  case _ =>
    simp [elemsNamed, technicalDetailsXml, h, List.filter_append, filter_ite, strTruthy]
  case _ =>
    intro h2
    simp [getLabelName, h, h2, jsOr]
  case _ =>
    intro h2 h3
    simp [getArtistName, h, h2, h3, jsOr]
  case _ =>
    constructor
    · simp [elemsNamed, releaseNodeXml, h, List.filter_append, filter_ite,
        filter_releaseGenres, filter_refLeaves, clineXml, plineXml, strTruthy]
    · simp [elemsNamed, messageHeaderXml, h, List.filter_append, filter_ite, strTruthy]
  case _ =>
    simp [elemsNamed, resourceListXml, h, List.filter_append, filter_ite,
      filter_soundRecordings, strTruthy]
  case _ =>
    intro h2
    simp [elemsNamed, releaseNodeXml, h, h2, List.filter_append, filter_ite,
      filter_releaseGenres, filter_refLeaves, clineTextOf, jsOrS, strTruthy, plineXml]
  case _ =>
    intro h2
    constructor <;>
      simp [elemsNamed, soundRecordingXml, releaseNodeXml, h, h2, List.filter_append,
        filter_ite, filter_displayArtists, filter_contributors, filter_parentalGroup,
        filter_releaseGenres, filter_refLeaves, technicalDetailsXml, plineTextOf,
        jsOrS, strTruthy, clineXml]
  case _ =>
    simp [elemsNamed, soundRecordingXml, h, List.filter_append, filter_ite,
      filter_contributors, filter_parentalGroup, technicalDetailsXml, plineXml,
      displayArtistsXml, getPrimaryArtists, getArtistsByRole, fallbackDisplayArtistXml]

/-- Witness for C8: the mix-version omission and the unknown-artist
fallback at concrete inputs. -/
theorem c8_totality_fallbacks_witness :
    elemsNamed "DisplayTitle" (soundRecordingXml demoRelease demoTrack) = []
    ∧ getArtistName { role_name := some "Producer" } = "Unknown Artist" := by
  have h := c8_totality_fallbacks demoRelease demoTrack [demoTrack]
    { role_name := some "Producer" } demoInput "a" "b" "c"
  exact ⟨h.2.1 rfl, h.2.2.2.2.2.2.2.2.2.1 rfl rfl rfl⟩

-- ==========================================================================
-- C9
-- ==========================================================================

/-- Replace the text of a header child when it is one of the two
message-id elements. -/
def setIdChild (newId : String) (c : Xml) : Xml :=
  match c with
  | .elem n a cs =>
      if n == "MessageThreadId" || n == "MessageId" then .elem n a [.text newId]
      else .elem n a cs
  | t => t

/-- Replace the message-id texts (the `MessageThreadId` and `MessageId`
header children) of a generated document. -/
def setMessageId (doc : Xml) (newId : String) : Xml :=
  match doc with
  | .elem n a cs =>
      .elem n a (cs.map fun hd =>
        match hd with
        | .elem hn ha hcs => .elem hn ha (hcs.map (setIdChild newId))
        | t => t)
  | t => t

/-- C9: with the ambient clock readings and random suffix made explicit,
generation is deterministic — identical input, clock and randomness give
byte-identical output (first conjunct, serialized form).  Varying only the
random source changes only the message identifier: substituting the new
run's message id into the two id elements of the old run's document yields
exactly the new run's document (second conjunct), the message id is the
fixed prefix `DDEX` + compact timestamp followed by the random suffix
(third conjunct), and the id appears precisely as the texts of the
`MessageThreadId` and `MessageId` header children (fourth conjunct). -/
theorem c9_determinism_randomSuffix (input input' : ReleaseWithDetails)
    (n1 n1' n2 n2' r r' : String) :
    (input = input' → n1 = n1' → n2 = n2' → r = r' →
      generateDdex n1 n2 r input = generateDdex n1' n2' r' input')
    ∧ setMessageId (generateDdexXml n1 n2 r input) (generateMessageId n1 r')
        = generateDdexXml n1 n2 r' input
    ∧ generateMessageId n1 r = "DDEX" ++ compactTimestamp n1 ++ r
    ∧ (∀ mid ts rel tracks,
        (elemsNamed "MessageThreadId" (messageHeaderXml mid ts rel tracks)).map Xml.textOf1
          = [mid]
        ∧ (elemsNamed "MessageId" (messageHeaderXml mid ts rel tracks)).map Xml.textOf1
          = [mid]) := by
  refine ⟨?_, ?_, rfl, ?_⟩
  · intro h1 h2 h3 h4
    rw [h1, h2, h3, h4]
  · simp [generateDdexXml, setMessageId, messageHeaderXml, setIdChild,
      resourceListXml, releaseListXml, dealListXml, relationshipsXml,
      relationshipEntryXml, List.map_append, leaf]
  · intro mid ts rel tracks
    constructor <;>
      simp [elemsNamed, messageHeaderXml, List.filter_append, filter_ite]

/-- Witness for C9: determinism instantiated at the sample input. -/
theorem c9_determinism_randomSuffix_witness :
    generateDdex "a" "b" "c" demoInput = generateDdex "a" "b" "c" demoInput :=
  (c9_determinism_randomSuffix demoInput demoInput "a" "a" "b" "b" "c" "c").1
    rfl rfl rfl rfl

end Ddex
